import Mathlib

/-!
Verification of the hotelier client-side search pipeline (src/api/hotelApi.js).

The module under verification filters, sorts, paginates and caches hotel
search results, with a fallback chain between a live remote API and a local
mock catalog.  We give a shallow embedding of its pure core:

* JS strings are Lean `String`s; the handful of string operations used by the
  code (`toLowerCase`, `toUpperCase`, `trim`, `includes`, `startsWith`) are
  modelled at the ASCII level on the underlying character lists.
* JS numbers are modelled as `Int` (the code only compares them; the float
  `userRating` is modelled at a fixed scale, which is order-faithful).
* Optional / possibly-`undefined` fields are `Option`s; JS truthiness tests
  (`filters.minPrice && ...`) are modelled explicitly (`undefined` and `0`
  are falsy, arrays are always truthy).
* The module-level mutable `searchCache` becomes an explicit `SearchCache`
  value threaded through calls; `Date.now()` becomes an explicit `now : Int`
  argument.
* The remote fetch adapter (token acquisition + by-city catalog query +
  dedup/cap + offers enrichment + `mapAmadeusHotel` normalization) is
  nondeterministic I/O; it is modelled as an oracle argument
  `fetch : Option (List Hotel)`: `none` is any failure of steps the code
  treats as fatal (auth error, non-ok response, thrown error) and
  `some raw` is the mapped hotel list the adapter produced.
* `Array.prototype.sort` with a comparator is, per the ECMAScript spec, the
  unique stable permutation sorted by the comparator; it is modelled by a
  stable insertion sort parameterized by the boolean relation
  "comparator(a,b) <= 0".  `localeCompare` is modelled as code-point order.
-/

namespace Hotelier

/-! ### Character / string helpers (ASCII model of the JS string methods) -/

/-- ASCII model of the lowercasing applied by `String.prototype.toLowerCase`
(code points 65-90 are the letters A-Z). -/
def lowerChar (c : Char) : Char :=
  if 65 ≤ c.toNat ∧ c.toNat ≤ 90 then Char.ofNat (c.toNat + 32) else c

/-- ASCII model of the uppercasing applied by `String.prototype.toUpperCase`
(code points 97-122 are the letters a-z). -/
def upperChar (c : Char) : Char :=
  if 97 ≤ c.toNat ∧ c.toNat ≤ 122 then Char.ofNat (c.toNat - 32) else c

def strToLower (s : String) : String := ⟨s.data.map lowerChar⟩

def strToUpper (s : String) : String := ⟨s.data.map upperChar⟩

/-- Whitespace as trimmed by `String.prototype.trim` (ASCII subset). -/
def wsChar (c : Char) : Bool :=
  c.toNat == 32 || c.toNat == 9 || c.toNat == 10 || c.toNat == 13

/-- Model of `String.prototype.trim`. -/
def strTrim (s : String) : String :=
  ⟨((s.data.dropWhile wsChar).reverse.dropWhile wsChar).reverse⟩

/-- `needle` occurs at the head of `hay`. -/
def charsAtHead : List Char → List Char → Bool
  | [], _ => true
  | _ :: _, [] => false
  | a :: as, b :: bs => a == b && charsAtHead as bs

/-- `needle` occurs somewhere in `hay` (model of `String.prototype.includes`). -/
def charsInclude : List Char → List Char → Bool
  | [], needle => charsAtHead needle []
  | hay@(_ :: t), needle => charsAtHead needle hay || charsInclude t needle

/-- Model of `hay.includes(needle)`. -/
def strIncludes (hay needle : String) : Bool := charsInclude hay.data needle.data

/-- Model of `s.startsWith(t)`. -/
def strStartsWith (s t : String) : Bool := charsAtHead t.data s.data

/-! ### JS truthiness of the optional filter fields -/

/-- Truthiness of an optional JS string: `undefined` and `""` are falsy. -/
def truthyStr : Option String → Bool
  | none => false
  | some s => !(s == "")

/-- Truthiness of an optional JS number: `undefined` and `0` are falsy. -/
def truthyNum : Option Int → Bool
  | none => false
  | some n => decide (n ≠ 0)

/-! ### Data model (mockData.js / hotelApi.js typedefs) -/

structure HotelLocation where
  city : String
  country : String
  address : String
deriving DecidableEq, Repr

structure Hotel where
  id : String
  name : String
  description : String
  rating : Int
  userRating : Int
  reviewCount : Int
  pricePerNight : Int
  currency : String
  location : HotelLocation
  images : List String
  amenities : List String
  roomType : String
  freeCancellation : Bool
  breakfastIncluded : Bool
deriving DecidableEq, Repr

/-- The `SearchFilters` typedef; absent JS fields are `none`. -/
structure SearchFilters where
  location : Option String := none
  checkIn : Option String := none
  checkOut : Option String := none
  guests : Option Int := none
  minPrice : Option Int := none
  maxPrice : Option Int := none
  rating : Option Int := none
  amenities : Option (List String) := none
  sortBy : Option String := none
deriving DecidableEq, Repr

/-- The `SearchResult` typedef. -/
structure SearchResult where
  hotels : List Hotel
  total : Nat
  page : Nat
  hasMore : Bool
deriving DecidableEq, Repr

/-- `HOTELS_PER_PAGE` from utils/constants.js. -/
def HOTELS_PER_PAGE : Nat := 12

/-! ### Cache store (module-level `searchCache` state) -/

/-- The normalized-filter tuple serialized by `getCacheKey` via
`JSON.stringify`; since the serialization of this fixed-shape record is
injective, key equality is equality of this structure. -/
structure CacheKey where
  location : String
  checkIn : String
  checkOut : String
  minPrice : Option Int
  maxPrice : Option Int
  rating : Option Int
  amenities : List String
  sortBy : String
deriving DecidableEq, Repr

/-- `getCacheKey` (hotelApi.js lines 88-99): JS `x || d` on the string
fields maps `undefined`/`""` to the default, the numeric fields are passed
through, `amenities` defaults to `[]` and `sortBy` to `"price_asc"`. -/
def getCacheKey (filters : SearchFilters) : CacheKey :=
  { location := filters.location.getD ""
  , checkIn := filters.checkIn.getD ""
  , checkOut := filters.checkOut.getD ""
  , minPrice := filters.minPrice
  , maxPrice := filters.maxPrice
  , rating := filters.rating
  , amenities := filters.amenities.getD []
  , sortBy :=
      match filters.sortBy with
      | some s => if s = "" then "price_asc" else s
      | none => "price_asc" }

/-- The cache TTL: 5 minutes in milliseconds. -/
def CACHE_TTL : Int := 5 * 60 * 1000

/-- The module-level `searchCache` record. -/
structure SearchCache where
  key : Option CacheKey
  hotels : List Hotel
  timestamp : Int
  ttl : Int
deriving DecidableEq, Repr

/-- The initial value of `searchCache`. -/
def initialSearchCache : SearchCache :=
  { key := none, hotels := [], timestamp := 0, ttl := CACHE_TTL }

/-- `clearSearchCache` (lines 119-126) resets the slot to its initial value. -/
def clearSearchCache : SearchCache :=
  { key := none, hotels := [], timestamp := 0, ttl := CACHE_TTL }

/-- `isCacheValid` (lines 106-114): key equality, a non-empty cached set and
freshness within the TTL. -/
def isCacheValid (cache : SearchCache) (filters : SearchFilters) (now : Int) : Bool :=
  cache.key == some (getCacheKey filters) &&
  decide (0 < cache.hotels.length) &&
  decide (now - cache.timestamp < cache.ttl)

/-! ### Filter engine (`filterHotels`, lines 359-398) -/

/-- The location test of `filterHotels`: lower-cased trimmed search term,
substring match against the lower-cased city or country. -/
def locationTermMatch (l : String) (hotel : Hotel) : Bool :=
  strIncludes (strToLower hotel.location.city) (strTrim (strToLower l)) ||
  strIncludes (strToLower hotel.location.country) (strTrim (strToLower l))

/-- The guard `filters.amenities && filters.amenities.length > 0`: a JS array
is always truthy, so this is "present and non-empty". -/
def amenitiesRequested : Option (List String) → Bool
  | some l => !l.isEmpty
  | none => false

/-- The per-hotel predicate of `filterHotels`, translated early-return by
early-return; each guard is a JS truthiness test conjoined with the
disqualifying comparison. -/
def hotelMatches (filters : SearchFilters) (hotel : Hotel) : Bool :=
  if truthyStr filters.location && !(locationTermMatch (filters.location.getD "") hotel) then false
  else if truthyNum filters.minPrice && decide (hotel.pricePerNight < filters.minPrice.getD 0) then false
  else if truthyNum filters.maxPrice && decide (filters.maxPrice.getD 0 < hotel.pricePerNight) then false
  else if truthyNum filters.rating && decide (hotel.rating < filters.rating.getD 0) then false
  else if amenitiesRequested filters.amenities &&
      !((filters.amenities.getD []).all fun a => hotel.amenities.contains a) then false
  else true

/-- `filterHotels` (lines 359-398). -/
def filterHotels (hotels : List Hotel) (filters : SearchFilters) : List Hotel :=
  hotels.filter (hotelMatches filters)

/-! ### Sort engine (`sortHotels`, lines 406-421)

`Array.prototype.sort` with a consistent comparator produces the unique
stable permutation ordered by the comparator; `stableSort le` computes
exactly that permutation for the relation `le a b = (comparator a b <= 0)`
(stability, sortedness and permutation are proved below). -/

def insertOrd {α : Type} (le : α → α → Bool) (x : α) : List α → List α
  | [] => [x]
  | y :: l => if le x y then x :: y :: l else y :: insertOrd le x l

def stableSort {α : Type} (le : α → α → Bool) : List α → List α
  | [] => []
  | x :: l => insertOrd le x (stableSort le l)

/-- Comparator `(a, b) => a.pricePerNight - b.pricePerNight`. -/
def lePriceAsc (a b : Hotel) : Bool := decide (a.pricePerNight ≤ b.pricePerNight)

/-- Comparator `(a, b) => b.pricePerNight - a.pricePerNight`. -/
def lePriceDesc (a b : Hotel) : Bool := decide (b.pricePerNight ≤ a.pricePerNight)

/-- Comparator `(a, b) => b.userRating - a.userRating`. -/
def leRatingDesc (a b : Hotel) : Bool := decide (b.userRating ≤ a.userRating)

/-- Comparator `(a, b) => a.name.localeCompare(b.name)`, with `localeCompare`
modelled as code-point order. -/
def leNameAsc (a b : Hotel) : Bool := decide (a.name ≤ b.name)

/-- `sortHotels` (lines 406-421); the defaulted parameter
`sortBy = "price_asc"` applies exactly when the argument is `undefined`. -/
def sortHotels (hotels : List Hotel) (sortBy : Option String) : List Hotel :=
  let s := sortBy.getD "price_asc"
  if s = "price_asc" then stableSort lePriceAsc hotels
  else if s = "price_desc" then stableSort lePriceDesc hotels
  else if s = "rating_desc" then stableSort leRatingDesc hotels
  else if s = "name_asc" then stableSort leNameAsc hotels
  else hotels

/-! ### Location resolver (`getCityCode`, lines 426-486) -/

/-- The `CITY_CODES` table, in source order (`Object.entries` iterates string
keys in insertion order). -/
def CITY_CODES : List (String × String) :=
  [ ("new york", "NYC"), ("nyc", "NYC"), ("paris", "PAR"), ("london", "LON")
  , ("tokyo", "TYO"), ("dubai", "DXB"), ("bangkok", "BKK"), ("singapore", "SIN")
  , ("los angeles", "LAX"), ("miami", "MIA"), ("rome", "ROM"), ("barcelona", "BCN")
  , ("amsterdam", "AMS"), ("delhi", "DEL"), ("mumbai", "BOM") ]

/-- The character class of the regex `/^[a-z]{3}$/i` applied to an already
lower-cased string. -/
def lowerAlpha (c : Char) : Bool := decide (97 ≤ c.toNat) && decide (c.toNat ≤ 122)

/-- `getCityCode` (lines 450-486).  The short-input branch of the source
computes a partial match and then returns `null` either way
(`exactMatch ? null : null`), so it is modelled as returning `none`. -/
def getCityCode (location : Option String) : Option String :=
  match location with
  | none => some "NYC"
  | some loc =>
    if loc = "" ∨ (strTrim loc).length = 0 then some "NYC"
    else
      let normalized := strTrim (strToLower loc)
      if normalized.length < 3 then none
      else if normalized.length = 3 && normalized.data.all lowerAlpha then
        some (strToUpper normalized)
      else
        match CITY_CODES.find? (fun p => p.1 == normalized) with
        | some p => some p.2
        | none =>
          match CITY_CODES.find? (fun p =>
              strStartsWith p.1 normalized || strStartsWith normalized p.1) with
          | some p => some p.2
          | none => none

/-! ### Pagination and the search orchestrator (`searchHotels`, lines 495-688) -/

/-- `list.slice(s, e)` for `0 ≤ s ≤ e`. -/
def jsSlice (l : List Hotel) (s e : Nat) : List Hotel := (l.drop s).take (e - s)

/-- The mock-mode branch of `searchHotels` (lines 498-515), and equally the
`LIVE_UNRESOLVED` fallback (lines 520-534), with the static `mockHotels`
catalog as a parameter. -/
def searchHotelsMock (catalog : List Hotel) (filters : SearchFilters) (page : Nat) : SearchResult :=
  let results := sortHotels (filterHotels catalog filters) filters.sortBy
  let total := results.length
  let startIndex := (page - 1) * HOTELS_PER_PAGE
  let endIndex := startIndex + HOTELS_PER_PAGE
  { hotels := jsSlice results startIndex endIndex
  , total := total
  , page := page
  , hasMore := decide (endIndex < total) }

/-- The error fallback of the live branch: both the non-ok-response fallback
(lines 581-588) and the catch-all fallback (lines 678-686) return the first
page of the filtered and sorted catalog with `page: 1`. -/
def mockFallbackResult (catalog : List Hotel) (filters : SearchFilters) : SearchResult :=
  let results := sortHotels (filterHotels catalog filters) filters.sortBy
  { hotels := jsSlice results 0 HOTELS_PER_PAGE
  , total := results.length
  , page := 1
  , hasMore := decide ((HOTELS_PER_PAGE : Nat) < results.length) }

/-- One live-mode call: the resulting cache state, the returned result, and
whether the call reached the remote fetch adapter. -/
structure LiveSearchStep where
  cache : SearchCache
  result : SearchResult
  fetched : Bool
deriving DecidableEq, Repr

/-- `{ ...filters, location: undefined }` (line 647-650). -/
def stripLocation (filters : SearchFilters) : SearchFilters :=
  { filters with location := none }

/-- The live branch of `searchHotels` (lines 517-688).  `fetch` is the remote
adapter oracle, see the module docstring; on `some raw` the code applies the
client-side filters with the location cleared, sorts, writes the cache slot
(lines 653-659) and paginates; on failure the cache is left untouched and the
mock fallback is returned.  `fetched` records whether the remote was hit. -/
def searchHotelsLive (catalog : List Hotel) (cache : SearchCache) (filters : SearchFilters)
    (page : Nat) (now : Int) (fetch : Option (List Hotel)) : LiveSearchStep :=
  match getCityCode filters.location with
  | none =>
      { cache := cache, result := searchHotelsMock catalog filters page, fetched := false }
  | some _ =>
      if isCacheValid cache filters now then
        let cachedHotels := cache.hotels
        let total := cachedHotels.length
        let startIndex := (page - 1) * HOTELS_PER_PAGE
        let endIndex := startIndex + HOTELS_PER_PAGE
        { cache := cache
        , result := { hotels := jsSlice cachedHotels startIndex endIndex
                    , total := total, page := page
                    , hasMore := decide (endIndex < total) }
        , fetched := false }
      else
        match fetch with
        | none =>
            { cache := cache, result := mockFallbackResult catalog filters, fetched := true }
        | some raw =>
            let mapped := sortHotels (filterHotels raw (stripLocation filters)) filters.sortBy
            let newCache : SearchCache :=
              { key := some (getCacheKey filters), hotels := mapped
              , timestamp := now, ttl := CACHE_TTL }
            let total := mapped.length
            let startIndex := (page - 1) * HOTELS_PER_PAGE
            let endIndex := startIndex + HOTELS_PER_PAGE
            { cache := newCache
            , result := { hotels := jsSlice mapped startIndex endIndex
                        , total := total, page := page
                        , hasMore := decide (endIndex < total) }
            , fetched := true }

/-! ### Spec-side filter predicates (C3), and sample values for witnesses -/

/-- C3's location predicate: "if filters.location is non-empty, a
case-insensitive substring match of the trimmed location against the hotel's
city or country". -/
def specLocClause (filters : SearchFilters) (hotel : Hotel) : Bool :=
  match filters.location with
  | some l => if l = "" then true else locationTermMatch l hotel
  | none => true

/-- C3's minimum-price predicate read literally: "if minPrice is set,
pricePerNight ≥ minPrice". -/
def statedMinClause (filters : SearchFilters) (hotel : Hotel) : Bool :=
  match filters.minPrice with
  | some m => decide (m ≤ hotel.pricePerNight)
  | none => true

/-- C3's maximum-price predicate read literally: "if maxPrice is set,
pricePerNight ≤ maxPrice". -/
def statedMaxClause (filters : SearchFilters) (hotel : Hotel) : Bool :=
  match filters.maxPrice with
  | some m => decide (hotel.pricePerNight ≤ m)
  | none => true

/-- C3's rating predicate read literally: "if rating is set,
hotel.rating ≥ filters.rating". -/
def statedRatingClause (filters : SearchFilters) (hotel : Hotel) : Bool :=
  match filters.rating with
  | some r => decide (r ≤ hotel.rating)
  | none => true

/-- C3's amenities predicate: "if a non-empty amenities list is set, the
hotel's amenities contain every requested amenity". -/
def specAmenClause (filters : SearchFilters) (hotel : Hotel) : Bool :=
  match filters.amenities with
  | some l => if l.isEmpty then true else l.all fun a => hotel.amenities.contains a
  | none => true

/-- C3's predicate exactly as stated (the "set" conditions read as mere
presence of the field). -/
def hotelMatchesStated (filters : SearchFilters) (hotel : Hotel) : Bool :=
  specLocClause filters hotel && statedMinClause filters hotel &&
  statedMaxClause filters hotel && statedRatingClause filters hotel &&
  specAmenClause filters hotel

/-- The amended minimum-price predicate: "set to a non-zero value" (the JS
truthiness test skips a `0` bound). -/
def specMinClause (filters : SearchFilters) (hotel : Hotel) : Bool :=
  match filters.minPrice with
  | some m => if m = 0 then true else decide (m ≤ hotel.pricePerNight)
  | none => true

/-- The amended maximum-price predicate: "set to a non-zero value". -/
def specMaxClause (filters : SearchFilters) (hotel : Hotel) : Bool :=
  match filters.maxPrice with
  | some m => if m = 0 then true else decide (hotel.pricePerNight ≤ m)
  | none => true

/-- The amended rating predicate: "set to a non-zero value". -/
def specRatingClause (filters : SearchFilters) (hotel : Hotel) : Bool :=
  match filters.rating with
  | some r => if r = 0 then true else decide (r ≤ hotel.rating)
  | none => true

/-- C3's predicate with the amendment: numeric bounds constrain exactly when
set to a non-zero value. -/
def hotelMatchesSpec (filters : SearchFilters) (hotel : Hotel) : Bool :=
  specLocClause filters hotel && specMinClause filters hotel &&
  specMaxClause filters hotel && specRatingClause filters hotel &&
  specAmenClause filters hotel

/-- A concrete hotel (used to instantiate witnesses and counterexamples). -/
def sampleHotel (price : Int) : Hotel :=
  { id := "h1", name := "Hotel Sample", description := "d", rating := 4
  , userRating := 80, reviewCount := 10, pricePerNight := price, currency := "USD"
  , location := { city := "Paris", country := "France", address := "1 Rue" }
  , images := ["i"], amenities := ["WIFI"], roomType := "Standard"
  , freeCancellation := true, breakfastIncluded := false }

/-- Filters whose location resolves (exact table hit "paris" → "PAR"). -/
def parisFilters : SearchFilters := { location := some "paris" }

/-- Filters whose location does not resolve. -/
def unknownLocationFilters : SearchFilters := { location := some "zzzznotacity" }

/-! ### Stable sort: decomposition, permutation, sortedness, stability -/

theorem stableSort_nil {α : Type} (le : α → α → Bool) : stableSort le [] = [] := rfl

theorem stableSort_cons {α : Type} (le : α → α → Bool) (x : α) (t : List α) :
    stableSort le (x :: t) = insertOrd le x (stableSort le t) := rfl

theorem insertOrd_decomp {α : Type} (le : α → α → Bool) (x : α) (m : List α) :
    ∃ l₁ l₂, m = l₁ ++ l₂ ∧ insertOrd le x m = l₁ ++ x :: l₂ ∧ ∀ y ∈ l₁, le x y = false := by
  induction m with
  | nil => exact ⟨[], [], rfl, rfl, by simp⟩
  | cons y t ih =>
    by_cases h : le x y = true
    · exact ⟨[], y :: t, rfl, by simp [insertOrd, h], by simp⟩
    · obtain ⟨l₁, l₂, hm, hins, hall⟩ := ih
      refine ⟨y :: l₁, l₂, by simp [hm], by simp [insertOrd, h, hins], ?_⟩
      intro z hz
      rcases List.mem_cons.mp hz with rfl | hz
      · exact Bool.eq_false_iff.mpr h
      · exact hall z hz

theorem mem_insertOrd {α : Type} (le : α → α → Bool) (x z : α) (m : List α) :
    z ∈ insertOrd le x m ↔ z = x ∨ z ∈ m := by
  obtain ⟨l₁, l₂, hm, hins, -⟩ := insertOrd_decomp le x m
  subst hm
  rw [hins]
  simp [List.mem_append, List.mem_cons]
  tauto

theorem insertOrd_perm {α : Type} (le : α → α → Bool) (x : α) (m : List α) :
    (insertOrd le x m).Perm (x :: m) := by
  obtain ⟨l₁, l₂, hm, hins, -⟩ := insertOrd_decomp le x m
  subst hm
  rw [hins]
  exact List.perm_middle

theorem stableSort_perm {α : Type} (le : α → α → Bool) (l : List α) :
    (stableSort le l).Perm l := by
  induction l with
  | nil => exact List.Perm.refl []
  | cons x t ih =>
    rw [stableSort_cons]
    exact (insertOrd_perm le x _).trans (ih.cons x)

theorem pairwise_insertOrd {α : Type} (le : α → α → Bool)
    (htot : ∀ a b, le a b = false → le b a = true)
    (htrans : ∀ a b c, le a b = true → le b c = true → le a c = true)
    (x : α) (m : List α) (hm : m.Pairwise (fun a b => le a b = true)) :
    (insertOrd le x m).Pairwise (fun a b => le a b = true) := by
  induction m with
  | nil => simp [insertOrd]
  | cons y t ih =>
    rw [List.pairwise_cons] at hm
    obtain ⟨hy, ht⟩ := hm
    by_cases h : le x y = true
    · rw [insertOrd, if_pos h, List.pairwise_cons]
      refine ⟨?_, List.pairwise_cons.mpr ⟨hy, ht⟩⟩
      intro z hz
      rcases List.mem_cons.mp hz with rfl | hz
      · exact h
      · exact htrans x y z h (hy z hz)
    · rw [insertOrd, if_neg h, List.pairwise_cons]
      refine ⟨?_, ih ht⟩
      intro z hz
      rcases (mem_insertOrd le x z t).mp hz with hzx | hz
      · rw [hzx]
        exact htot x y (Bool.eq_false_iff.mpr h)
      · exact hy z hz

theorem pairwise_stableSort {α : Type} (le : α → α → Bool)
    (htot : ∀ a b, le a b = false → le b a = true)
    (htrans : ∀ a b c, le a b = true → le b c = true → le a c = true)
    (l : List α) :
    (stableSort le l).Pairwise (fun a b => le a b = true) := by
  induction l with
  | nil => simp [stableSort_nil]
  | cons x t ih =>
    rw [stableSort_cons]
    exact pairwise_insertOrd le htot htrans x _ ih

theorem filter_stableSort {α β : Type} [DecidableEq β] (k : α → β) (cmp : β → β → Bool)
    (le : α → α → Bool) (hle : ∀ a b, le a b = cmp (k a) (k b)) (hrefl : ∀ v, cmp v v = true)
    (l : List α) (v : β) :
    (stableSort le l).filter (fun a => decide (k a = v)) = l.filter (fun a => decide (k a = v)) := by
  induction l with
  | nil => rfl
  | cons x t ih =>
    obtain ⟨l₁, l₂, hm, hins, hall⟩ := insertOrd_decomp le x (stableSort le t)
    have hsplit : (stableSort le t).filter (fun a => decide (k a = v)) =
        l₁.filter (fun a => decide (k a = v)) ++ l₂.filter (fun a => decide (k a = v)) := by
      rw [hm, List.filter_append]
    by_cases hx : k x = v
    · have h₁ : l₁.filter (fun a => decide (k a = v)) = [] := by
        rw [List.filter_eq_nil_iff]
        intro a ha
        simp only [decide_eq_true_eq]
        intro hav
        have h2 := hall a ha
        rw [hle, hx, hav, hrefl] at h2
        exact absurd h2 (by decide)
      have ht2 : t.filter (fun a => decide (k a = v)) = l₂.filter (fun a => decide (k a = v)) := by
        rw [← ih, hsplit, h₁, List.nil_append]
      rw [stableSort_cons, hins, List.filter_append, h₁, List.nil_append]
      simp [List.filter_cons, hx, ht2]
    · rw [stableSort_cons, hins, List.filter_append]
      have hstep : (x :: l₂).filter (fun a => decide (k a = v)) =
          l₂.filter (fun a => decide (k a = v)) := by
        simp [List.filter_cons, hx]
      rw [hstep, ← hsplit, ih]
      simp [List.filter_cons, hx]

/-! ### The filter predicate as a conjunction of clauses -/

theorem iteChain (a b c d e : Bool) :
    (if a then false
     else if b then false
     else if c then false
     else if d then false
     else if e then false
     else true) = (!a && !b && !c && !d && !e) := by
  cases a <;> cases b <;> cases c <;> cases d <;> cases e <;> rfl

theorem hotelMatches_eq_chain (f : SearchFilters) (h : Hotel) :
    hotelMatches f h =
      (!(truthyStr f.location && !(locationTermMatch (f.location.getD "") h)) &&
       !(truthyNum f.minPrice && decide (h.pricePerNight < f.minPrice.getD 0)) &&
       !(truthyNum f.maxPrice && decide (f.maxPrice.getD 0 < h.pricePerNight)) &&
       !(truthyNum f.rating && decide (h.rating < f.rating.getD 0)) &&
       !(amenitiesRequested f.amenities &&
         !((f.amenities.getD []).all fun a => h.amenities.contains a))) :=
  iteChain _ _ _ _ _

theorem locClause_eq (f : SearchFilters) (h : Hotel) :
    (!(truthyStr f.location && !(locationTermMatch (f.location.getD "") h))) =
      specLocClause f h := by
  unfold specLocClause
  cases f.location with
  | none => rfl
  | some l =>
    by_cases he : l = ""
    · subst he; rfl
    · simp [truthyStr, he]

theorem minClause_eq (f : SearchFilters) (h : Hotel) :
    (!(truthyNum f.minPrice && decide (h.pricePerNight < f.minPrice.getD 0))) =
      specMinClause f h := by
  unfold specMinClause
  cases f.minPrice with
  | none => rfl
  | some m =>
    by_cases h0 : m = 0
    · subst h0; simp [truthyNum]
    · simp [truthyNum, h0, ← decide_not, decide_eq_decide]

theorem maxClause_eq (f : SearchFilters) (h : Hotel) :
    (!(truthyNum f.maxPrice && decide (f.maxPrice.getD 0 < h.pricePerNight))) =
      specMaxClause f h := by
  unfold specMaxClause
  cases f.maxPrice with
  | none => rfl
  | some m =>
    by_cases h0 : m = 0
    · subst h0; simp [truthyNum]
    · simp [truthyNum, h0, ← decide_not, decide_eq_decide]

theorem ratingClause_eq (f : SearchFilters) (h : Hotel) :
    (!(truthyNum f.rating && decide (h.rating < f.rating.getD 0))) =
      specRatingClause f h := by
  unfold specRatingClause
  cases f.rating with
  | none => rfl
  | some r =>
    by_cases h0 : r = 0
    · subst h0; simp [truthyNum]
    · simp [truthyNum, h0, ← decide_not, decide_eq_decide]

theorem amenClause_eq (f : SearchFilters) (h : Hotel) :
    (!(amenitiesRequested f.amenities &&
        !((f.amenities.getD []).all fun a => h.amenities.contains a))) =
      specAmenClause f h := by
  unfold specAmenClause
  cases f.amenities with
  | none => rfl
  | some l =>
    cases l with
    | nil => rfl
    | cons a t => simp [amenitiesRequested, Bool.not_not]

theorem hotelMatches_eq_spec (f : SearchFilters) (h : Hotel) :
    hotelMatches f h = hotelMatchesSpec f h := by
  rw [hotelMatches_eq_chain, locClause_eq, minClause_eq, maxClause_eq, ratingClause_eq,
    amenClause_eq]
  rfl

theorem filterHotels_eq_spec (hotels : List Hotel) (f : SearchFilters) :
    filterHotels hotels f = hotels.filter (hotelMatchesSpec f) := by
  unfold filterHotels
  exact List.filter_congr fun h _ => hotelMatches_eq_spec f h

/-! ### Lowercasing commutes with trimming and preserves length -/

theorem toNat_ofNat_valid (n : Nat) (h : n.isValidChar) : (Char.ofNat n).toNat = n := by
  unfold Char.ofNat
  rw [dif_pos h]
  rfl

theorem wsChar_lowerChar (c : Char) : wsChar (lowerChar c) = wsChar c := by
  unfold lowerChar
  split
  · rename_i hc
    have hvalid : (c.toNat + 32).isValidChar := Or.inl (by omega)
    have hof : (Char.ofNat (c.toNat + 32)).toNat = c.toNat + 32 := toNat_ofNat_valid _ hvalid
    have key : ∀ (d : Char), 64 < d.toNat → wsChar d = false := by
      intro d hd
      unfold wsChar
      have h1 : (d.toNat == 32) = false := by rw [beq_eq_false_iff_ne]; omega
      have h2 : (d.toNat == 9) = false := by rw [beq_eq_false_iff_ne]; omega
      have h3 : (d.toNat == 10) = false := by rw [beq_eq_false_iff_ne]; omega
      have h4 : (d.toNat == 13) = false := by rw [beq_eq_false_iff_ne]; omega
      rw [h1, h2, h3, h4]
      rfl
    rw [key _ (by omega), key c (by omega)]
  · rfl

theorem dropWhile_lowerChar (l : List Char) :
    (l.map lowerChar).dropWhile wsChar = (l.dropWhile wsChar).map lowerChar := by
  rw [List.dropWhile_map]
  have hfun : (wsChar ∘ lowerChar) = wsChar := funext wsChar_lowerChar
  rw [hfun]

theorem strTrim_strToLower (s : String) : strTrim (strToLower s) = strToLower (strTrim s) := by
  unfold strTrim strToLower
  congr 1
  simp only [String.data]
  rw [dropWhile_lowerChar, ← List.map_reverse, dropWhile_lowerChar, ← List.map_reverse]

theorem strToLower_length (s : String) : (strToLower s).length = s.length :=
  List.length_map s.data lowerChar

theorem strTrim_lower_length (s : String) :
    (strTrim (strToLower s)).length = (strTrim s).length := by
  rw [strTrim_strToLower]
  exact strToLower_length (strTrim s)

/-! ### Orchestrator step lemmas -/

theorem getCityCode_congr_getD (l : Option String) :
    getCityCode l = getCityCode (some (l.getD "")) := by
  cases l with
  | none => rfl
  | some s => rfl

theorem cacheKey_determines_city (f1 f2 : SearchFilters)
    (hk : getCacheKey f1 = getCacheKey f2) :
    getCityCode f1.location = getCityCode f2.location := by
  have hloc : f1.location.getD "" = f2.location.getD "" := congrArg CacheKey.location hk
  rw [getCityCode_congr_getD, hloc, ← getCityCode_congr_getD]

theorem searchLive_miss_fetch (catalog : List Hotel) (cache : SearchCache)
    (f : SearchFilters) (page : Nat) (now : Int) (raw : List Hotel) (c : String)
    (hc : getCityCode f.location = some c)
    (hmiss : isCacheValid cache f now = false) :
    searchHotelsLive catalog cache f page now (some raw) =
      { cache := { key := some (getCacheKey f)
                 , hotels := sortHotels (filterHotels raw (stripLocation f)) f.sortBy
                 , timestamp := now, ttl := CACHE_TTL }
      , result :=
          { hotels := jsSlice (sortHotels (filterHotels raw (stripLocation f)) f.sortBy)
                ((page - 1) * HOTELS_PER_PAGE) ((page - 1) * HOTELS_PER_PAGE + HOTELS_PER_PAGE)
          , total := (sortHotels (filterHotels raw (stripLocation f)) f.sortBy).length
          , page := page
          , hasMore := decide ((page - 1) * HOTELS_PER_PAGE + HOTELS_PER_PAGE <
              (sortHotels (filterHotels raw (stripLocation f)) f.sortBy).length) }
      , fetched := true } := by
  unfold searchHotelsLive
  rw [hc]
  simp [hmiss]

theorem searchLive_hit (catalog : List Hotel) (cache : SearchCache)
    (f : SearchFilters) (page : Nat) (now : Int) (fetch : Option (List Hotel)) (c : String)
    (hc : getCityCode f.location = some c)
    (hhit : isCacheValid cache f now = true) :
    searchHotelsLive catalog cache f page now fetch =
      { cache := cache
      , result :=
          { hotels := jsSlice cache.hotels
                ((page - 1) * HOTELS_PER_PAGE) ((page - 1) * HOTELS_PER_PAGE + HOTELS_PER_PAGE)
          , total := cache.hotels.length
          , page := page
          , hasMore := decide ((page - 1) * HOTELS_PER_PAGE + HOTELS_PER_PAGE <
              cache.hotels.length) }
      , fetched := false } := by
  unfold searchHotelsLive
  rw [hc]
  simp [hhit]

theorem searchLive_miss_fetched (catalog : List Hotel) (cache : SearchCache)
    (f : SearchFilters) (page : Nat) (now : Int) (fetch : Option (List Hotel)) (c : String)
    (hc : getCityCode f.location = some c)
    (hmiss : isCacheValid cache f now = false) :
    (searchHotelsLive catalog cache f page now fetch).fetched = true := by
  unfold searchHotelsLive
  rw [hc]
  simp [hmiss]
  cases fetch <;> rfl

theorem cacheEmpty_not_valid (st : SearchCache) (g : SearchFilters) (t : Int)
    (hst : st.hotels = []) : isCacheValid st g t = false := by
  unfold isCacheValid
  rw [hst]
  simp

/-! ### Claim theorems -/

/-- C8 counterexample: in live mode with an unresolvable location
("zzzznotacity") and requested page 5, the returned result's page is 5 =
the requested page — it is echoed, not reset. -/
theorem unresolved_fallback_echoes_page :
    (searchHotelsLive [] initialSearchCache unknownLocationFilters 5 0 none).result.page = 5 := by
  decide

/-- C8 (amended): in live mode, when the location resolver returns null the
call returns the mock-path computation over the static catalog at the
REQUESTED page (the page is echoed, not reset), the cache is untouched and
no remote fetch happens. -/
theorem searchLive_unresolved_fallback (catalog : List Hotel) (cache : SearchCache)
    (f : SearchFilters) (page : Nat) (now : Int) (fetch : Option (List Hotel))
    (hc : getCityCode f.location = none) :
    searchHotelsLive catalog cache f page now fetch =
      { cache := cache, result := searchHotelsMock catalog f page, fetched := false } := by
  unfold searchHotelsLive
  rw [hc]

/-- Witness for C8: the amended theorem applied at a concrete unresolvable
location and page 5. -/
theorem searchLive_unresolved_fallback_witness :
    searchHotelsLive [] initialSearchCache unknownLocationFilters 5 0 none =
      { cache := initialSearchCache
      , result := searchHotelsMock [] unknownLocationFilters 5
      , fetched := false } :=
  searchLive_unresolved_fallback [] initialSearchCache unknownLocationFilters 5 0 none (by decide)

/-- C2: whenever the live branch reaches the remote fetch (resolved city,
cache miss) and the fetch fails with any thrown error (`fetch = none`), the
orchestrator catches it and returns the filtered and sorted mock catalog
with the result page set to 1, whatever page was requested; no state change.
(`searchHotelsLive`/`searchHotelsMock` are total functions, so a result is
returned for every input by construction.) -/
theorem searchLive_error_fallback (catalog : List Hotel) (cache : SearchCache)
    (f : SearchFilters) (page : Nat) (now : Int) (c : String)
    (hc : getCityCode f.location = some c)
    (hmiss : isCacheValid cache f now = false) :
    searchHotelsLive catalog cache f page now none =
      { cache := cache, result := mockFallbackResult catalog f, fetched := true } ∧
    (searchHotelsLive catalog cache f page now none).result.page = 1 := by
  have h : searchHotelsLive catalog cache f page now none =
      { cache := cache, result := mockFallbackResult catalog f, fetched := true } := by
    unfold searchHotelsLive
    rw [hc]
    simp [hmiss]
  exact ⟨h, by rw [h]; rfl⟩

/-- Witness for C2: the error fallback at filters "paris", requested page 7. -/
theorem searchLive_error_fallback_witness :
    (searchHotelsLive [sampleHotel 1] initialSearchCache parisFilters 7 0 none).result.page = 1 :=
  (searchLive_error_fallback [sampleHotel 1] initialSearchCache parisFilters 7 0 "PAR"
    (by decide) (by decide)).2

/-- C9: the cache-validity predicate rejects any state whose hotel list is
empty; consequently a live search whose successful fetch filters/sorts to
zero hotels writes a cache entry that is never a hit, and the next search
with the same filters reaches the remote fetch again, within any TTL
window. -/
theorem emptyResult_cache_never_hit (catalog : List Hotel) (cache : SearchCache)
    (f : SearchFilters) (page : Nat) (now : Int) (raw : List Hotel) (c : String)
    (hc : getCityCode f.location = some c)
    (hmiss : isCacheValid cache f now = false)
    (hempty : sortHotels (filterHotels raw (stripLocation f)) f.sortBy = []) :
    (∀ (st : SearchCache) (g : SearchFilters) (t : Int),
        st.hotels = [] → isCacheValid st g t = false) ∧
    (searchHotelsLive catalog cache f page now (some raw)).cache.hotels = [] ∧
    (∀ (page2 : Nat) (now2 : Int) (fetch2 : Option (List Hotel)),
      (searchHotelsLive catalog (searchHotelsLive catalog cache f page now (some raw)).cache
          f page2 now2 fetch2).fetched = true) := by
  have hstep := searchLive_miss_fetch catalog cache f page now raw c hc hmiss
  refine ⟨cacheEmpty_not_valid, ?_, ?_⟩
  · rw [hstep]
    exact hempty
  · intro page2 now2 fetch2
    apply searchLive_miss_fetched _ _ _ _ _ _ c hc
    apply cacheEmpty_not_valid
    rw [hstep]
    exact hempty

/-- Witness for C9: a fetch returning zero hotels for "paris" leaves a cache
slot that forces the immediately following identical search to fetch again. -/
theorem emptyResult_cache_never_hit_witness :
    (searchHotelsLive [] (searchHotelsLive [] initialSearchCache parisFilters 1 0 (some [])).cache
        parisFilters 1 1000 (some [])).fetched = true :=
  (emptyResult_cache_never_hit [] initialSearchCache parisFilters 1 0 [] "PAR"
    (by decide) (by decide) (by decide)).2.2 1 1000 (some [])

/-- C1 counterexample: two consecutive live-mode searches with identical
filters ("paris"), no intervening clear, the second 1 second after the first
(well within the 5-minute TTL) — yet because the first fetch produced zero
hotels, BOTH calls hit the remote fetch adapter: the second call does
trigger a second remote fetch. -/
theorem second_call_refetches_within_ttl :
    (searchHotelsLive [] initialSearchCache parisFilters 1 0 (some [])).fetched = true ∧
    (searchHotelsLive [] initialSearchCache parisFilters 1 0 (some [])).cache.key
      = some (getCacheKey parisFilters) ∧
    (1000 : Int) -
        (searchHotelsLive [] initialSearchCache parisFilters 1 0 (some [])).cache.timestamp
      < CACHE_TTL ∧
    (searchHotelsLive [] (searchHotelsLive [] initialSearchCache parisFilters 1 0 (some [])).cache
        parisFilters 1 1000 (some [])).fetched = true := by
  decide

/-- C1 (amended): two consecutive live-mode search calls with identical
normalized filters (equal cache keys), no intervening clear or filter
mutation, where the first call performs the fetch and its filtered/sorted
result set is NON-EMPTY, and the second call falls within the 5-minute TTL:
the second call does not reach the remote fetch adapter (for any oracle
value), leaves the cache untouched, and returns the requested page sliced
directly from the cached set — no filter or sort step is applied to it. -/
theorem searchLive_cache_coherence (catalog : List Hotel) (cache : SearchCache)
    (f1 f2 : SearchFilters) (page1 page2 : Nat) (now1 now2 : Int)
    (raw : List Hotel) (fetch2 : Option (List Hotel))
    (hkey : getCacheKey f1 = getCacheKey f2)
    (hcity : getCityCode f1.location ≠ none)
    (hmiss : isCacheValid cache f1 now1 = false)
    (hnonempty : sortHotels (filterHotels raw (stripLocation f1)) f1.sortBy ≠ [])
    (httl : now2 - now1 < CACHE_TTL) :
    (searchHotelsLive catalog cache f1 page1 now1 (some raw)).fetched = true ∧
    (searchHotelsLive catalog (searchHotelsLive catalog cache f1 page1 now1 (some raw)).cache
        f2 page2 now2 fetch2).fetched = false ∧
    (searchHotelsLive catalog (searchHotelsLive catalog cache f1 page1 now1 (some raw)).cache
        f2 page2 now2 fetch2).cache
      = (searchHotelsLive catalog cache f1 page1 now1 (some raw)).cache ∧
    (searchHotelsLive catalog (searchHotelsLive catalog cache f1 page1 now1 (some raw)).cache
        f2 page2 now2 fetch2).result
      = { hotels := jsSlice (searchHotelsLive catalog cache f1 page1 now1 (some raw)).cache.hotels
              ((page2 - 1) * HOTELS_PER_PAGE) ((page2 - 1) * HOTELS_PER_PAGE + HOTELS_PER_PAGE)
        , total := (searchHotelsLive catalog cache f1 page1 now1 (some raw)).cache.hotels.length
        , page := page2
        , hasMore := decide ((page2 - 1) * HOTELS_PER_PAGE + HOTELS_PER_PAGE <
            (searchHotelsLive catalog cache f1 page1 now1 (some raw)).cache.hotels.length) } := by
  obtain ⟨c, hc⟩ := Option.ne_none_iff_exists'.mp hcity
  have hc2 : getCityCode f2.location = some c := by
    rw [← cacheKey_determines_city f1 f2 hkey]
    exact hc
  have hstep := searchLive_miss_fetch catalog cache f1 page1 now1 raw c hc hmiss
  have hvalid : isCacheValid (searchHotelsLive catalog cache f1 page1 now1 (some raw)).cache
      f2 now2 = true := by
    rw [hstep]
    unfold isCacheValid
    simp only [hkey]
    have hlen : 0 < (sortHotels (filterHotels raw (stripLocation f1)) f1.sortBy).length :=
      List.length_pos.mpr hnonempty
    simp [hlen, httl]
  have hhit := searchLive_hit catalog
    (searchHotelsLive catalog cache f1 page1 now1 (some raw)).cache f2 page2 now2 fetch2 c
    hc2 hvalid
  refine ⟨by rw [hstep], by rw [hhit], by rw [hhit], by rw [hhit]⟩

/-- Witness for C1: a first search for "paris" fetching one hotel, a second
identical search one second later at page 2 with a failing oracle — the
second call does not fetch. -/
theorem searchLive_cache_coherence_witness :
    (searchHotelsLive []
        (searchHotelsLive [] initialSearchCache parisFilters 1 0 (some [sampleHotel 100])).cache
        parisFilters 2 1000 none).fetched = false :=
  (searchLive_cache_coherence [] initialSearchCache parisFilters parisFilters 1 2 0 1000
    [sampleHotel 100] none rfl (by decide) (by decide) (by decide) (by decide)).2.1

/-- C10: `guests` is dead to the search pipeline — two filter objects that
differ only in the guests field produce identical mock results, identical
live steps (result, cache state and fetch behavior) and identical cache
keys, for every catalog, page, cache state, clock and fetch oracle. -/
theorem guests_noninterference (g : Option Int) (catalog : List Hotel)
    (f : SearchFilters) (page : Nat) (cache : SearchCache) (now : Int)
    (fetch : Option (List Hotel)) :
    searchHotelsMock catalog { f with guests := g } page = searchHotelsMock catalog f page ∧
    searchHotelsLive catalog cache { f with guests := g } page now fetch =
      searchHotelsLive catalog cache f page now fetch ∧
    getCacheKey { f with guests := g } = getCacheKey f := by
  cases f
  exact ⟨rfl, rfl, rfl⟩

/-- C3 counterexample: with `maxPrice` present but `0` (a falsy JS number)
the code skips the maximum-price predicate, so a 100-per-night hotel is
returned even though the claim's reading of "maxPrice is set" demands
`100 ≤ 0`; `filterHotels` differs from the claimed predicate filter. -/
theorem filterHotels_stated_counterexample :
    filterHotels [sampleHotel 100] { maxPrice := some 0 } = [sampleHotel 100] ∧
    List.filter (hotelMatchesStated { maxPrice := some 0 }) [sampleHotel 100] = [] ∧
    filterHotels [sampleHotel 100] { maxPrice := some 0 } ≠
      List.filter (hotelMatchesStated { maxPrice := some 0 }) [sampleHotel 100] := by
  decide

/-- C3 (amended): `filterHotels` returns exactly the hotels passing every
claimed predicate, with the numeric bounds (minPrice, maxPrice, rating)
constraining exactly when they are set to a NON-ZERO value (JS truthiness):
location substring match on trimmed, case-normalized text; minPrice ≤ price;
price ≤ maxPrice; rating threshold; and the amenities superset test. -/
theorem filterHotels_spec (hotels : List Hotel) (f : SearchFilters) :
    filterHotels hotels f = hotels.filter (hotelMatchesSpec f) := by
  unfold filterHotels
  exact List.filter_congr fun h _ => hotelMatches_eq_spec f h

/-- C7 counterexample: `minPrice = 50 > maxPrice = 0`, both set — but `0` is
falsy, the maximum-price check is skipped, and a 100-per-night hotel
passes: the result is not empty. -/
theorem contradictory_bounds_counterexample :
    filterHotels [sampleHotel 100] { minPrice := some 50, maxPrice := some 0 }
      = [sampleHotel 100] := by
  decide

/-- C7 (amended): whenever both bounds are set to NON-ZERO values and
minPrice > maxPrice, no hotel can pass both price predicates and
`filterHotels` returns the empty list (and, being a total function, it
cannot fail). -/
theorem filterHotels_contradictory_bounds (hotels : List Hotel) (f : SearchFilters)
    (m M : Int) (hmin : f.minPrice = some m) (hmax : f.maxPrice = some M)
    (hm : m ≠ 0) (hM : M ≠ 0) (hlt : M < m) :
    filterHotels hotels f = [] := by
  unfold filterHotels
  rw [List.filter_eq_nil_iff]
  intro h _
  rw [hotelMatches_eq_spec]
  unfold hotelMatchesSpec specMinClause specMaxClause
  rw [hmin, hmax]
  simp [hm, hM]
  intro _ h1 h2 _
  omega

/-- Witness for C7: bounds 5 > 2 empty out a one-hotel list. -/
theorem filterHotels_contradictory_bounds_witness :
    filterHotels [sampleHotel 100] { minPrice := some 5, maxPrice := some 2 } = [] :=
  filterHotels_contradictory_bounds [sampleHotel 100]
    { minPrice := some 5, maxPrice := some 2 } 5 2 rfl rfl (by decide) (by decide) (by decide)

/-- C4: for every catalog, filters and page ≥ 1, the mock-mode search slices
the filtered and sorted set at `start = (page-1)*12`, `end = start+12`,
reports `total` as the full length, echoes the page, sets
`hasMore = (end < total) = (page*12 < total)`, and an out-of-range page
yields an empty hotels array. -/
theorem searchMock_pagination (catalog : List Hotel) (f : SearchFilters) (page : Nat)
    (hp : 1 ≤ page) :
    searchHotelsMock catalog f page =
      { hotels := ((sortHotels (filterHotels catalog f) f.sortBy).drop
            ((page - 1) * HOTELS_PER_PAGE)).take HOTELS_PER_PAGE
      , total := (sortHotels (filterHotels catalog f) f.sortBy).length
      , page := page
      , hasMore := decide ((page - 1) * HOTELS_PER_PAGE + HOTELS_PER_PAGE <
          (sortHotels (filterHotels catalog f) f.sortBy).length) } ∧
    (searchHotelsMock catalog f page).hasMore
      = decide (page * HOTELS_PER_PAGE <
          (sortHotels (filterHotels catalog f) f.sortBy).length) ∧
    ((sortHotels (filterHotels catalog f) f.sortBy).length ≤ (page - 1) * HOTELS_PER_PAGE →
      (searchHotelsMock catalog f page).hotels = []) := by
  have h12 : HOTELS_PER_PAGE = 12 := rfl
  have harith : (page - 1) * HOTELS_PER_PAGE + HOTELS_PER_PAGE = page * HOTELS_PER_PAGE := by
    rw [h12]
    omega
  refine ⟨?_, ?_, ?_⟩
  · unfold searchHotelsMock jsSlice
    simp [Nat.add_sub_cancel_left]
  · unfold searchHotelsMock
    simp only [harith]
  · intro hle
    unfold searchHotelsMock jsSlice
    simp [List.drop_eq_nil_of_le hle]

/-- Witness for C4: page 1 over a one-hotel catalog. -/
theorem searchMock_pagination_witness :
    (searchHotelsMock [sampleHotel 1] {} 1).hasMore
      = decide (1 * HOTELS_PER_PAGE <
          (sortHotels (filterHotels [sampleHotel 1] {}) ({} : SearchFilters).sortBy).length) :=
  (searchMock_pagination [sampleHotel 1] {} 1 (by decide)).2.1

/-- C5: `getCityCode` applies its rules in order — missing/empty/whitespace
input gives the default "NYC"; input trimming to fewer than 3 characters
gives null; exactly 3 trimmed alphabetic characters are returned upper-cased;
otherwise an exact `CITY_CODES` hit returns the mapped code, else the first
table entry (in table order) related to the input by the one-sided
starts-with test returns its code, else null; and concretely
resolve("") = "NYC", resolve("xy") = null, resolve("par") = "PAR",
resolve("zzzznotacity") = null.  (`getCityCode` is a total Lean function:
it never throws.) -/
theorem getCityCode_rules :
    (getCityCode none = some "NYC") ∧
    (∀ s : String, (strTrim s).length = 0 → getCityCode (some s) = some "NYC") ∧
    (∀ s : String, 0 < (strTrim s).length → (strTrim s).length < 3 →
      getCityCode (some s) = none) ∧
    (∀ s : String, (strTrim s).length = 3 →
      (strTrim (strToLower s)).data.all lowerAlpha = true →
      getCityCode (some s) = some (strToUpper (strTrim (strToLower s)))) ∧
    (∀ (s : String) (p : String × String), 3 ≤ (strTrim s).length →
      ¬((strTrim (strToLower s)).length = 3 ∧
        (strTrim (strToLower s)).data.all lowerAlpha = true) →
      CITY_CODES.find? (fun q => q.1 == strTrim (strToLower s)) = some p →
      getCityCode (some s) = some p.2) ∧
    (∀ (s : String) (p : String × String), 3 ≤ (strTrim s).length →
      ¬((strTrim (strToLower s)).length = 3 ∧
        (strTrim (strToLower s)).data.all lowerAlpha = true) →
      CITY_CODES.find? (fun q => q.1 == strTrim (strToLower s)) = none →
      CITY_CODES.find? (fun q => strStartsWith q.1 (strTrim (strToLower s)) ||
        strStartsWith (strTrim (strToLower s)) q.1) = some p →
      getCityCode (some s) = some p.2) ∧
    (∀ s : String, 3 ≤ (strTrim s).length →
      ¬((strTrim (strToLower s)).length = 3 ∧
        (strTrim (strToLower s)).data.all lowerAlpha = true) →
      CITY_CODES.find? (fun q => q.1 == strTrim (strToLower s)) = none →
      CITY_CODES.find? (fun q => strStartsWith q.1 (strTrim (strToLower s)) ||
        strStartsWith (strTrim (strToLower s)) q.1) = none →
      getCityCode (some s) = none) ∧
    (getCityCode (some "") = some "NYC" ∧ getCityCode (some "xy") = none ∧
      getCityCode (some "par") = some "PAR" ∧ getCityCode (some "zzzznotacity") = none) := by
  have hbranch1 : ∀ s : String, 0 < (strTrim s).length → ¬(s = "" ∨ (strTrim s).length = 0) := by
    rintro s hpos (rfl | hz)
    · exact absurd hpos (by decide)
    · omega
  refine ⟨rfl, ?_, ?_, ?_, ?_, ?_, ?_, by decide⟩
  · intro s h
    simp only [getCityCode]
    rw [if_pos (Or.inr h)]
  · intro s hpos hlt
    simp only [getCityCode]
    rw [if_neg (hbranch1 s hpos)]
    have hcond : (strTrim (strToLower s)).length < 3 := by
      rw [strTrim_lower_length]
      exact hlt
    rw [if_pos hcond]
  · intro s hlen halpha
    simp only [getCityCode]
    rw [if_neg (hbranch1 s (by omega))]
    have hnlt : ¬(strTrim (strToLower s)).length < 3 := by
      rw [strTrim_lower_length]
      omega
    rw [if_neg hnlt]
    have hcond : ((strTrim (strToLower s)).length = 3 &&
        (strTrim (strToLower s)).data.all lowerAlpha) = true := by
      rw [Bool.and_eq_true, halpha]
      refine ⟨?_, rfl⟩
      rw [decide_eq_true_eq, strTrim_lower_length]
      exact hlen
    rw [if_pos hcond]
  · intro s p hge hn3 hfind
    simp only [getCityCode]
    rw [if_neg (hbranch1 s (by omega))]
    have hnlt : ¬(strTrim (strToLower s)).length < 3 := by
      rw [strTrim_lower_length]
      omega
    rw [if_neg hnlt]
    have hcond : ¬(((strTrim (strToLower s)).length = 3 &&
        (strTrim (strToLower s)).data.all lowerAlpha) = true) := by
      rw [Bool.and_eq_true, decide_eq_true_eq]
      exact hn3
    rw [if_neg hcond, hfind]
  · intro s p hge hn3 hexact hpart
    simp only [getCityCode]
    rw [if_neg (hbranch1 s (by omega))]
    have hnlt : ¬(strTrim (strToLower s)).length < 3 := by
      rw [strTrim_lower_length]
      omega
    rw [if_neg hnlt]
    have hcond : ¬(((strTrim (strToLower s)).length = 3 &&
        (strTrim (strToLower s)).data.all lowerAlpha) = true) := by
      rw [Bool.and_eq_true, decide_eq_true_eq]
      exact hn3
    rw [if_neg hcond, hexact, hpart]
  · intro s hge hn3 hexact hpart
    simp only [getCityCode]
    rw [if_neg (hbranch1 s (by omega))]
    have hnlt : ¬(strTrim (strToLower s)).length < 3 := by
      rw [strTrim_lower_length]
      omega
    rw [if_neg hnlt]
    have hcond : ¬(((strTrim (strToLower s)).length = 3 &&
        (strTrim (strToLower s)).data.all lowerAlpha) = true) := by
      rw [Bool.and_eq_true, decide_eq_true_eq]
      exact hn3
    rw [if_neg hcond, hexact, hpart]

/-- Witness for C5: every rule of `getCityCode_rules` applied at a concrete
input — whitespace-only "  ", short "hi", literal code "ber", exact entry
"paris", one-sided match "amster", and the unmatched "qqqq". -/
theorem getCityCode_rules_witness :
    getCityCode (some "  ") = some "NYC" ∧
    getCityCode (some "hi") = none ∧
    getCityCode (some " ber ") = some (strToUpper (strTrim (strToLower " ber "))) ∧
    getCityCode (some "paris") = some "PAR" ∧
    getCityCode (some "amster") = some "AMS" ∧
    getCityCode (some "qqqq") = none :=
  ⟨getCityCode_rules.2.1 "  " (by decide),
   getCityCode_rules.2.2.1 "hi" (by decide) (by decide),
   getCityCode_rules.2.2.2.1 " ber " (by decide) (by decide),
   getCityCode_rules.2.2.2.2.1 "paris" ("paris", "PAR") (by decide) (by decide) (by decide),
   getCityCode_rules.2.2.2.2.2.1 "amster" ("amsterdam", "AMS") (by decide) (by decide)
     (by decide) (by decide),
   getCityCode_rules.2.2.2.2.2.2.1 "qqqq" (by decide) (by decide) (by decide) (by decide)⟩

/-! ### Comparator facts for the four sort keys -/

theorem lePriceAsc_tot (a b : Hotel) (h : lePriceAsc a b = false) : lePriceAsc b a = true := by
  simp [lePriceAsc] at h ⊢
  omega

theorem lePriceAsc_trans (a b c : Hotel) (h1 : lePriceAsc a b = true)
    (h2 : lePriceAsc b c = true) : lePriceAsc a c = true := by
  simp [lePriceAsc] at h1 h2 ⊢
  omega

theorem lePriceDesc_tot (a b : Hotel) (h : lePriceDesc a b = false) : lePriceDesc b a = true := by
  simp [lePriceDesc] at h ⊢
  omega

theorem lePriceDesc_trans (a b c : Hotel) (h1 : lePriceDesc a b = true)
    (h2 : lePriceDesc b c = true) : lePriceDesc a c = true := by
  simp [lePriceDesc] at h1 h2 ⊢
  omega

theorem leRatingDesc_tot (a b : Hotel) (h : leRatingDesc a b = false) :
    leRatingDesc b a = true := by
  simp [leRatingDesc] at h ⊢
  omega

theorem leRatingDesc_trans (a b c : Hotel) (h1 : leRatingDesc a b = true)
    (h2 : leRatingDesc b c = true) : leRatingDesc a c = true := by
  simp [leRatingDesc] at h1 h2 ⊢
  omega

/-- C6 counterexample: with sortBy ABSENT the defaulted parameter kicks in
and the list is sorted by ascending price — input order is not preserved. -/
theorem sortHotels_absent_counterexample :
    sortHotels [sampleHotel 300, sampleHotel 100] none ≠ [sampleHotel 300, sampleHotel 100] := by
  decide

/-- C6 (amended): "price_asc" sorts ascending by pricePerNight (concretely
[300,100,200] → [100,200,300], and in general a sorted permutation),
"price_desc" descending, "rating_desc" descending by userRating; every sort
key is stable (hotels with equal key keep their original relative order,
stated as filter-preservation at each key value); an UNKNOWN sortBy string
returns the input unchanged; an ABSENT sortBy defaults to "price_asc"
(rather than preserving input order, which the original claim asserted). -/
theorem sortHotels_spec :
    (sortHotels [sampleHotel 300, sampleHotel 100, sampleHotel 200] (some "price_asc")
      = [sampleHotel 100, sampleHotel 200, sampleHotel 300]) ∧
    (sortHotels [sampleHotel 300, sampleHotel 100, sampleHotel 200] (some "price_desc")
      = [sampleHotel 300, sampleHotel 200, sampleHotel 100]) ∧
    (∀ l : List Hotel, (sortHotels l (some "price_asc")).Pairwise
        (fun a b => a.pricePerNight ≤ b.pricePerNight) ∧
      (sortHotels l (some "price_asc")).Perm l) ∧
    (∀ l : List Hotel, (sortHotels l (some "price_desc")).Pairwise
        (fun a b => b.pricePerNight ≤ a.pricePerNight) ∧
      (sortHotels l (some "price_desc")).Perm l) ∧
    (∀ l : List Hotel, (sortHotels l (some "rating_desc")).Pairwise
        (fun a b => b.userRating ≤ a.userRating) ∧
      (sortHotels l (some "rating_desc")).Perm l) ∧
    (∀ (l : List Hotel) (v : Int),
      (sortHotels l (some "price_asc")).filter (fun h => decide (h.pricePerNight = v))
        = l.filter (fun h => decide (h.pricePerNight = v))) ∧
    (∀ (l : List Hotel) (v : Int),
      (sortHotels l (some "price_desc")).filter (fun h => decide (h.pricePerNight = v))
        = l.filter (fun h => decide (h.pricePerNight = v))) ∧
    (∀ (l : List Hotel) (v : Int),
      (sortHotels l (some "rating_desc")).filter (fun h => decide (h.userRating = v))
        = l.filter (fun h => decide (h.userRating = v))) ∧
    (∀ (l : List Hotel) (v : String),
      (sortHotels l (some "name_asc")).filter (fun h => decide (h.name = v))
        = l.filter (fun h => decide (h.name = v))) ∧
    (∀ (l : List Hotel) (s : String), s ≠ "price_asc" → s ≠ "price_desc" →
      s ≠ "rating_desc" → s ≠ "name_asc" → sortHotels l (some s) = l) ∧
    (∀ l : List Hotel, sortHotels l none = sortHotels l (some "price_asc")) := by
  refine ⟨by decide, by decide, ?_, ?_, ?_, ?_, ?_, ?_, ?_, ?_, fun l => rfl⟩
  · intro l
    exact ⟨(pairwise_stableSort lePriceAsc lePriceAsc_tot lePriceAsc_trans l).imp
        (fun hab => of_decide_eq_true hab),
      stableSort_perm lePriceAsc l⟩
  · intro l
    exact ⟨(pairwise_stableSort lePriceDesc lePriceDesc_tot lePriceDesc_trans l).imp
        (fun hab => of_decide_eq_true hab),
      stableSort_perm lePriceDesc l⟩
  · intro l
    exact ⟨(pairwise_stableSort leRatingDesc leRatingDesc_tot leRatingDesc_trans l).imp
        (fun hab => of_decide_eq_true hab),
      stableSort_perm leRatingDesc l⟩
  · intro l v
    exact filter_stableSort (fun h : Hotel => h.pricePerNight) (fun a b : Int => decide (a ≤ b))
      lePriceAsc (fun a b => rfl) (fun v => by simp) l v
  · intro l v
    exact filter_stableSort (fun h : Hotel => h.pricePerNight) (fun a b : Int => decide (b ≤ a))
      lePriceDesc (fun a b => rfl) (fun v => by simp) l v
  · intro l v
    exact filter_stableSort (fun h : Hotel => h.userRating) (fun a b : Int => decide (b ≤ a))
      leRatingDesc (fun a b => rfl) (fun v => by simp) l v
  · intro l v
    exact filter_stableSort (fun h : Hotel => h.name) (fun a b : String => decide (a ≤ b))
      leNameAsc (fun a b => rfl) (fun v => by simp) l v
  · intro l s h1 h2 h3 h4
    unfold sortHotels
    simp only [Option.getD_some]
    rw [if_neg h1, if_neg h2, if_neg h3, if_neg h4]

/-- Witness for C6: the unknown-key conjunct applied at the concrete key
"bogus" leaves a one-element list untouched. -/
theorem sortHotels_spec_witness :
    sortHotels [sampleHotel 5] (some "bogus") = [sampleHotel 5] :=
  sortHotels_spec.2.2.2.2.2.2.2.2.2.1 [sampleHotel 5] "bogus"
    (by decide) (by decide) (by decide) (by decide)

end Hotelier

